import Mathlib

/-!
Verification development for the WasteWise backend (Python/FastAPI service).

Shallow embedding of the code under `backend/app/`:
* `services/gemini_service.py` — response reconciliation (`_parse_gemini_response`,
  `_create_fallback_response`, `_calculate_points`),
* `core/config.py` — category list, disposal-guide table, points/level constants,
* `api/routes/waste.py` — level computation of `GET /stats/{user_id}` and the
  base64 request validator,
* `utils/image_processor.py` — `validate_image` (external imaging/MIME libraries
  are modelled as oracle parameters; the function's own branching is embedded).

Python strings are modelled as `List Char`; Python floats as exact rationals `ℚ`
(the service only compares, clamps and stores them, which is exact on the decimal
values involved; the nonstandard float values NaN/Infinity and underscore digit
separators are outside the modelled fragment); JSON values as the inductive `Json`
with Python-`dict` association-list semantics (insert-or-overwrite keeps the
original position, as CPython dicts do).
-/

/-! ### Characters that the repository scanner treats specially -/

def backtick : Char := Char.ofNat 96

def lbrace : Char := Char.ofNat 123

def rbrace : Char := Char.ofNat 125

def dquote : Char := Char.ofNat 34

def bslash : Char := Char.ofNat 92

/-! ### Python string primitives over `List Char` -/

/-- Whitespace stripped by Python `str.strip()` (ASCII fragment). -/
def isPyWs (c : Char) : Bool :=
  c = ' ' || c = '\t' || c = '\n' || c = '\r' || c = Char.ofNat 11 || c = Char.ofNat 12

/-- Python `str.strip()`. -/
def pyStrip (s : List Char) : List Char :=
  ((s.dropWhile isPyWs).reverse.dropWhile isPyWs).reverse

/-- Does `pat` occur as a prefix of `s`? (Helper for Python `str.find`.) -/
def matchesAt : List Char → List Char → Bool
  | [], _ => true
  | _ :: _, [] => false
  | p :: ps, c :: cs => if p = c then matchesAt ps cs else false

/-- Python `s.find(pat)`: index of the first occurrence, `none` for Python's `-1`. -/
def pyFind : List Char → List Char → Option Nat
  | [], pat => if matchesAt pat [] then some 0 else none
  | c :: t, pat => if matchesAt pat (c :: t) then some 0 else (pyFind t pat).map (· + 1)

/-- Python `s.find(pat, start)`. -/
def pyFindFrom (s pat : List Char) (start : Nat) : Option Nat :=
  (pyFind (s.drop start) pat).map (· + start)

/-- Python slice `s[a:e]` where `e = none` encodes the slice end `-1`
    (as produced by a failed `find`), i.e. `s[a:len(s)-1]`. -/
def pySliceEnd (s : List Char) (a : Nat) (e : Option Nat) : List Char :=
  match e with
  | some b => (s.drop a).take (b - a)
  | none => (s.drop a).take (s.length - 1 - a)

/-! ### JSON values (result of Python `json.loads`) -/

inductive Json where
  | null : Json
  | bool (b : Bool) : Json
  | num (q : ℚ) : Json
  | str (s : String) : Json
  | arr (xs : List Json) : Json
  | obj (fields : List (String × Json)) : Json

/-- A Python `dict` with string keys, in insertion order. -/
abbrev ResultDict := List (String × Json)

/-- Python `d[k]` / `d.get(k)` as a total lookup. -/
def dictGet : ResultDict → String → Option Json
  | [], _ => none
  | (k1, v) :: rest, k => if k1 = k then some v else dictGet rest k

/-- Python `d[k] = v`: overwrite in place if the key exists (keeping its
    position, as CPython dicts do), else append. -/
def dictSet : ResultDict → String → Json → ResultDict
  | [], k, v => [(k, v)]
  | (k1, v1) :: rest, k, v =>
      if k1 = k then (k, v) :: rest else (k1, v1) :: dictSet rest k v

/-- Python `d.setdefault(k, v)`: keep an existing entry (even a `None` one),
    else insert. -/
def pySetdefault (d : ResultDict) (k : String) (v : Json) : ResultDict :=
  if (dictGet d k).isSome then d else dictSet d k v

/-- Python truthiness of a JSON-decoded value. -/
def pyTruthy : Json → Bool
  | Json.null => false
  | Json.bool b => b
  | Json.num q => decide (q ≠ 0)
  | Json.str s => decide (s ≠ "")
  | Json.arr xs => !xs.isEmpty
  | Json.obj fs => !fs.isEmpty

/-! ### JSON text parser (Python `json.loads` on the standard JSON fragment;
the nonstandard `NaN`/`Infinity` literals accepted by CPython are outside the
modelled fragment) -/

/-- JSON inter-token whitespace. -/
def isJsonWs (c : Char) : Bool :=
  c = ' ' || c = '\t' || c = '\n' || c = '\r'

def skipWs (s : List Char) : List Char := s.dropWhile isJsonWs

def digitsVal (ds : List Char) : Nat :=
  ds.foldl (fun a c => a * 10 + (c.toNat - 48)) 0

/-- Assemble a decimal literal `[-] intD [. fracD] [e[-] expD]` as a rational,
    using core `mkRat` and `Nat.pow` so that concrete values reduce in the kernel. -/
def mkDec (neg : Bool) (intD fracD : List Char) (negE : Bool) (expD : List Char) : ℚ :=
  let m : Nat := digitsVal (intD ++ fracD)
  let sgn : Int := if neg then -(m : Int) else (m : Int)
  let e : Nat := digitsVal expD
  if negE then mkRat sgn (Nat.pow 10 (fracD.length + e))
  else mkRat (sgn * ((Nat.pow 10 e : Nat) : Int)) (Nat.pow 10 fracD.length)

def hexVal (c : Char) : Option Nat :=
  if c.isDigit then some (c.toNat - 48)
  else if 'a' ≤ c && c ≤ 'f' then some (c.toNat - 87)
  else if 'A' ≤ c && c ≤ 'F' then some (c.toNat - 55)
  else none

/-- Content of a JSON string after the opening quote, with escape handling and
    the `strict=True` rejection of raw control characters; returns the decoded
    characters and the input after the closing quote. -/
def parseStringChars : Nat → List Char → Option (List Char × List Char)
  | 0, _ => none
  | _ + 1, [] => none
  | fuel + 1, c :: rest =>
    if c = dquote then some ([], rest)
    else if c = bslash then
      match rest with
      | [] => none
      | e :: rest2 =>
        if e = dquote then (parseStringChars fuel rest2).map (fun p => (dquote :: p.1, p.2))
        else if e = bslash then (parseStringChars fuel rest2).map (fun p => (bslash :: p.1, p.2))
        else if e = '/' then (parseStringChars fuel rest2).map (fun p => ('/' :: p.1, p.2))
        else if e = 'b' then (parseStringChars fuel rest2).map (fun p => (Char.ofNat 8 :: p.1, p.2))
        else if e = 'f' then (parseStringChars fuel rest2).map (fun p => (Char.ofNat 12 :: p.1, p.2))
        else if e = 'n' then (parseStringChars fuel rest2).map (fun p => ('\n' :: p.1, p.2))
        else if e = 'r' then (parseStringChars fuel rest2).map (fun p => ('\r' :: p.1, p.2))
        else if e = 't' then (parseStringChars fuel rest2).map (fun p => ('\t' :: p.1, p.2))
        else if e = 'u' then
          match rest2 with
          | h1 :: h2 :: h3 :: h4 :: rest3 =>
            match hexVal h1, hexVal h2, hexVal h3, hexVal h4 with
            | some a, some b, some c2, some d =>
              (parseStringChars fuel rest3).map
                (fun p => (Char.ofNat (((a * 16 + b) * 16 + c2) * 16 + d) :: p.1, p.2))
            | _, _, _, _ => none
          | _ => none
        else none
    else if c.toNat < 32 then none
    else (parseStringChars fuel rest).map (fun p => (c :: p.1, p.2))

/-- A strict JSON number `-? int frac? exp?` (no leading zeros, no bare dot). -/
def parseNumber (s : List Char) : Option (ℚ × List Char) :=
  let signed : Bool × List Char :=
    match s with
    | '-' :: r => (true, r)
    | _ => (false, s)
  let neg := signed.1
  let s1 := signed.2
  let intD := s1.takeWhile Char.isDigit
  let r1 := s1.dropWhile Char.isDigit
  match intD with
  | [] => none
  | '0' :: _ :: _ => none
  | _ =>
    let fracPart : Option (List Char × List Char) :=
      match r1 with
      | '.' :: r =>
        let f := r.takeWhile Char.isDigit
        if f.isEmpty then none else some (f, r.dropWhile Char.isDigit)
      | _ => some ([], r1)
    match fracPart with
    | none => none
    | some (fracD, r2) =>
      match r2 with
      | 'e' :: r3 =>
        let esigned : Bool × List Char :=
          match r3 with
          | '-' :: r => (true, r)
          | '+' :: r => (false, r)
          | _ => (false, r3)
        let expD := esigned.2.takeWhile Char.isDigit
        if expD.isEmpty then none
        else some (mkDec neg intD fracD esigned.1 expD, esigned.2.dropWhile Char.isDigit)
      | 'E' :: r3 =>
        let esigned : Bool × List Char :=
          match r3 with
          | '-' :: r => (true, r)
          | '+' :: r => (false, r)
          | _ => (false, r3)
        let expD := esigned.2.takeWhile Char.isDigit
        if expD.isEmpty then none
        else some (mkDec neg intD fracD esigned.1 expD, esigned.2.dropWhile Char.isDigit)
      | _ => some (mkDec neg intD fracD false [], r2)

def trueLit : List Char := ['t', 'r', 'u', 'e']

def falseLit : List Char := ['f', 'a', 'l', 's', 'e']

def nullLit : List Char := ['n', 'u', 'l', 'l']

mutual

def parseValue : Nat → List Char → Option (Json × List Char)
  | 0, _ => none
  | fuel + 1, s =>
    match skipWs s with
    | [] => none
    | c :: rest =>
      if c = lbrace then parseObjBody fuel rest
      else if c = '[' then parseArrBody fuel rest
      else if c = dquote then
        (parseStringChars (rest.length + 1) rest).map
          (fun p => (Json.str (String.mk p.1), p.2))
      else if matchesAt trueLit (c :: rest) then some (Json.bool true, (c :: rest).drop 4)
      else if matchesAt falseLit (c :: rest) then some (Json.bool false, (c :: rest).drop 5)
      else if matchesAt nullLit (c :: rest) then some (Json.null, (c :: rest).drop 4)
      else (parseNumber (c :: rest)).map (fun p => (Json.num p.1, p.2))

def parseObjBody : Nat → List Char → Option (Json × List Char)
  | 0, _ => none
  | fuel + 1, s =>
    match skipWs s with
    | [] => none
    | c :: rest =>
      if c = rbrace then some (Json.obj [], rest)
      else parseMembers fuel (c :: rest) []

def parseMembers : Nat → List Char → ResultDict → Option (Json × List Char)
  | 0, _, _ => none
  | fuel + 1, s, acc =>
    match skipWs s with
    | [] => none
    | c :: rest =>
      if c = dquote then
        match parseStringChars (rest.length + 1) rest with
        | none => none
        | some (kcs, rest2) =>
          match skipWs rest2 with
          | ':' :: rest3 =>
            match parseValue fuel rest3 with
            | none => none
            | some (v, rest4) =>
              let acc2 := dictSet acc (String.mk kcs) v
              match skipWs rest4 with
              | ',' :: rest5 => parseMembers fuel rest5 acc2
              | c2 :: rest5 => if c2 = rbrace then some (Json.obj acc2, rest5) else none
              | [] => none
          | _ => none
      else none

def parseArrBody : Nat → List Char → Option (Json × List Char)
  | 0, _ => none
  | fuel + 1, s =>
    match skipWs s with
    | [] => none
    | c :: rest =>
      if c = ']' then some (Json.arr [], rest)
      else parseElems fuel (c :: rest) []

def parseElems : Nat → List Char → List Json → Option (Json × List Char)
  | 0, _, _ => none
  | fuel + 1, s, acc =>
    match parseValue fuel s with
    | none => none
    | some (v, rest) =>
      match skipWs rest with
      | ',' :: rest2 => parseElems fuel rest2 (acc ++ [v])
      | ']' :: rest2 => some (Json.arr (acc ++ [v]), rest2)
      | _ => none

end

/-- Python `json.loads`: parse one JSON value and require only whitespace after it. -/
def json_loads (s : List Char) : Option Json :=
  match parseValue (2 * s.length + 2) s with
  | some (v, rest) => if skipWs rest = [] then some v else none
  | none => none

/-! ### Configuration data (`backend/app/core/config.py`) -/

/-- `Settings.WASTE_CATEGORIES` (config.py lines 92-104). -/
def WASTE_CATEGORIES : List String :=
  ["Recyclable Plastic", "Paper & Cardboard", "Organic/Compost", "Hazardous Waste",
   "Non-Recyclable", "Metal & Glass", "E-Waste", "Unknown"]

/-- `Settings.POINTS_CORRECT_DISPOSAL` (config.py line 109). -/
def POINTS_CORRECT_DISPOSAL : Nat := 50

/-- `Settings.LEVEL_THRESHOLDS` (config.py lines 115-123), in insertion order. -/
def LEVEL_THRESHOLDS : List (Nat × Nat) :=
  [(1, 0), (2, 200), (3, 500), (4, 1000), (5, 2000), (6, 5000), (7, 10000)]

/-- One entry of `WASTE_DISPOSAL_GUIDES` (config.py lines 214-299). -/
structure Guide where
  binColor : String
  instructions : List String
  examples : List String
  co2SavedPerKg : ℚ
  decompositionTime : String
deriving DecidableEq

/-- `WASTE_DISPOSAL_GUIDES` (config.py lines 214-299): the static table has
    entries for seven of the eight categories; "Unknown" has none. -/
def WASTE_DISPOSAL_GUIDES : List (String × Guide) :=
  [("Recyclable Plastic",
    { binColor := "BLUE"
      instructions :=
        ["Remove caps and labels if possible", "Rinse clean of food residue",
         "Flatten bottles to save space", "Place in blue recycling bin"]
      examples := ["Plastic bottles", "Food containers", "Plastic bags"]
      co2SavedPerKg := mkRat 3 2
      decompositionTime := "450 years" }),
   ("Paper & Cardboard",
    { binColor := "BLUE"
      instructions :=
        ["Keep dry and clean", "Flatten cardboard boxes",
         "Remove any plastic tape or stickers", "Place in blue recycling bin"]
      examples := ["Newspapers", "Cardboard boxes", "Office paper"]
      co2SavedPerKg := mkRat 9 10
      decompositionTime := "2-6 weeks" }),
   ("Organic/Compost",
    { binColor := "GREEN"
      instructions :=
        ["Remove any plastic or packaging", "Can mix with yard waste",
         "Keep in green compost bin", "Avoid meat and dairy (for home composting)"]
      examples := ["Food scraps", "Fruit peels", "Coffee grounds"]
      co2SavedPerKg := mkRat 3 10
      decompositionTime := "2-4 weeks" }),
   ("Hazardous Waste",
    { binColor := "RED"
      instructions :=
        ["DO NOT mix with regular trash", "Store safely until drop-off",
         "Take to hazardous waste facility", "Follow local regulations"]
      examples := ["Batteries", "Paint", "Chemicals", "Fluorescent bulbs"]
      co2SavedPerKg := 0
      decompositionTime := "Never decomposes safely" }),
   ("Metal & Glass",
    { binColor := "BLUE"
      instructions :=
        ["Rinse containers clean", "Remove lids and caps",
         "Can mix metals and glass", "Place in blue recycling bin"]
      examples := ["Aluminum cans", "Steel cans", "Glass bottles"]
      co2SavedPerKg := mkRat 21 10
      decompositionTime := "Glass: 1M years, Metal: 50-200 years" }),
   ("E-Waste",
    { binColor := "SPECIAL"
      instructions :=
        ["Remove batteries if possible", "Wipe personal data from devices",
         "Take to e-waste collection center", "Check for manufacturer take-back programs"]
      examples := ["Old phones", "Computers", "Cables", "Appliances"]
      co2SavedPerKg := mkRat 9 5
      decompositionTime := "Never decomposes, toxic materials" }),
   ("Non-Recyclable",
    { binColor := "BLACK/GREY"
      instructions :=
        ["Place in general waste bin", "Seal in bag if contaminated",
         "Consider reducing usage of these items", "Check if alternative disposal exists"]
      examples := ["Styrofoam", "Dirty plastics", "Mixed materials"]
      co2SavedPerKg := 0
      decompositionTime := "Varies, often hundreds of years" })]

/-- Python `category in WASTE_DISPOSAL_GUIDES` / `WASTE_DISPOSAL_GUIDES[category]`. -/
def guideLookup (c : String) : Option Guide :=
  (WASTE_DISPOSAL_GUIDES.find? (fun p => decide (p.1 = c))).map (·.2)

/-! ### Python `float(...)` coercion (`float(data.get("confidence", 0.5))`) -/

/-- Core of CPython `float(str)` after whitespace stripping and sign handling:
    `digits [. digits] [eE [sign] digits]`, at least one mantissa digit
    (`inf`/`nan`/underscore forms are outside the modelled fragment). -/
def parseDecCore (cs : List Char) : Option ℚ :=
  let intD := cs.takeWhile Char.isDigit
  let r1 := cs.dropWhile Char.isDigit
  let fracPart : Option (List Char × List Char) :=
    match r1 with
    | '.' :: r => some (r.takeWhile Char.isDigit, r.dropWhile Char.isDigit)
    | _ => some ([], r1)
  match fracPart with
  | none => none
  | some (fracD, r2) =>
    if intD.isEmpty && fracD.isEmpty then none
    else
      match r2 with
      | [] => some (mkDec false intD fracD false [])
      | e :: r3 =>
        if e = 'e' || e = 'E' then
          let esigned : Bool × List Char :=
            match r3 with
            | '-' :: r => (true, r)
            | '+' :: r => (false, r)
            | _ => (false, r3)
          let expD := esigned.2.takeWhile Char.isDigit
          let r5 := esigned.2.dropWhile Char.isDigit
          if expD.isEmpty || !r5.isEmpty then none
          else some (mkDec false intD fracD esigned.1 expD)
        else none

/-- CPython `float(str)` (decimal fragment). -/
def pyParseFloat (s : String) : Option ℚ :=
  match pyStrip s.toList with
  | '-' :: r => (parseDecCore r).map (fun q => -q)
  | '+' :: r => parseDecCore r
  | cs => parseDecCore cs

/-- CPython `float(x)` on a JSON-decoded value: numbers and bools convert,
    numeric strings parse, everything else raises (`none`). -/
def pyFloat : Json → Option ℚ
  | Json.num q => some q
  | Json.bool b => some (if b then 1 else 0)
  | Json.str s => pyParseFloat s
  | _ => none

/-! ### Response reconciler (`services/gemini_service.py`) -/

def jsonFence : List Char := [backtick, backtick, backtick, 'j', 's', 'o', 'n']

def plainFence : List Char := [backtick, backtick, backtick]

/-- Marker stripping of `_parse_gemini_response` (gemini_service.py lines 144-154):
    if the fenced marker is present, reassign `response_text` to the stripped slice
    between the first marker and the next closing marker (Python `find` returning
    `-1` makes the slice end `-1`, dropping the final character). -/
def stripMarkers (s : List Char) : List Char :=
  match pyFind s jsonFence with
  | some i => pyStrip (pySliceEnd s (i + 7) (pyFindFrom s plainFence (i + 7)))
  | none =>
    match pyFind s plainFence with
    | some i => pyStrip (pySliceEnd s (i + 3) (pyFindFrom s plainFence (i + 3)))
    | none => s

/-- `_create_fallback_response` (gemini_service.py lines 210-248); `raw` is the
    (possibly already marker-stripped) `response_text` the caller passes in. -/
def create_fallback_response (raw : List Char) : ResultDict :=
  [("item_name", Json.str "Unknown Item"),
   ("category", Json.str "Unknown"),
   ("confidence", Json.num (mkRat 3 10)),
   ("subcategory", Json.str "Unidentified"),
   ("recyclable", Json.bool false),
   ("disposal_steps", Json.arr
     [Json.str "Unable to identify waste type clearly",
      Json.str "Please retake photo with better lighting",
      Json.str "Ensure the item is clearly visible",
      Json.str "Consult local waste management guidelines"]),
   ("bin_color", Json.str "GREY"),
   ("environmental_impact", Json.obj
     [("co2_saved_kg", Json.num 0),
      ("decomposition_time", Json.str "Unknown"),
      ("recycling_potential", Json.str "Unknown")]),
   ("additional_tips", Json.arr
     [Json.str "Try taking a clearer photo",
      Json.str "Ensure good lighting",
      Json.str "Focus on one item at a time"]),
   ("warnings", Json.arr
     [Json.str "Could not identify waste type with high confidence"]),
   ("alternatives", Json.str "Please try scanning again"),
   ("raw_ai_response", Json.str (String.mk (raw.take 500)))]

/-- The required-field check of `_parse_gemini_response` (lines 160-163). -/
def requiredPresent (d : ResultDict) : Bool :=
  (dictGet d "item_name").isSome && (dictGet d "category").isSome
    && (dictGet d "confidence").isSome

/-- Is the value a category string from the fixed set? (line 166). -/
def catValid : Json → Bool
  | Json.str c => decide (c ∈ WASTE_CATEGORIES)
  | _ => false

/-- Category coercion (lines 165-168): an unrecognized (or non-string) category
    is overwritten with "Unknown". The key is present here because the required
    check already passed. -/
def coerceCategory (d : ResultDict) : ResultDict :=
  match dictGet d "category" with
  | some j => if catValid j then d else dictSet d "category" (Json.str "Unknown")
  | none => d

/-- Backfill stage 1 (lines 178-179): `if "disposal_steps" not in data or not
    data["disposal_steps"]: data["disposal_steps"] = guide["instructions"]`. -/
def bfSteps (d : ResultDict) (g : Guide) : ResultDict :=
  if (match dictGet d "disposal_steps" with
      | none => true
      | some v => !pyTruthy v) then
    dictSet d "disposal_steps" (Json.arr (g.instructions.map Json.str))
  else d

/-- Backfill stage 2 (lines 181-182): `if "bin_color" not in data: ...`. -/
def bfBin (d : ResultDict) (g : Guide) : ResultDict :=
  if (dictGet d "bin_color").isSome then d
  else dictSet d "bin_color" (Json.str g.binColor)

/-- Backfill stage 3 (lines 185-186): `if "environmental_impact" not in data:
    data["environmental_impact"] = {}`. -/
def bfEnvInit (d : ResultDict) : ResultDict :=
  if (dictGet d "environmental_impact").isSome then d
  else dictSet d "environmental_impact" (Json.obj [])

/-- Backfill stages 4-5 (lines 188-198): the two `.setdefault` calls on the
    nested dict and the unconditional `data["examples"] = guide["examples"]`.
    A non-dict `environmental_impact` raises `AttributeError` in Python, which
    the outer `except Exception` turns into the fallback response. -/
def bfEnv (d : ResultDict) (g : Guide) (text : List Char) : ResultDict :=
  match dictGet d "environmental_impact" with
  | some (Json.obj e) =>
    let e1 := pySetdefault e "co2_saved_kg" (Json.num g.co2SavedPerKg)
    let e2 := pySetdefault e1 "decomposition_time" (Json.str g.decompositionTime)
    dictSet (dictSet d "environmental_impact" (Json.obj e2)) "examples"
      (Json.arr (g.examples.map Json.str))
  | _ => create_fallback_response text

/-- Guide backfill (lines 173-198), run only when the (already coerced, hence
    string) category has an entry in the static guide table. -/
def backfill (d : ResultDict) (text : List Char) : ResultDict :=
  match dictGet d "category" with
  | some (Json.str c) =>
    match guideLookup c with
    | some g => bfEnv (bfEnvInit (bfBin (bfSteps d g) g)) g text
    | none => d
  | _ => d

/-- Python `min(a, b)`: the first argument wins ties; value-wise the ordinary
    minimum, written with a core-decidable comparison so it reduces in the kernel. -/
def pyMin (a b : ℚ) : ℚ := if b < a then b else a

/-- Python `max(a, b)`. -/
def pyMax (a b : ℚ) : ℚ := if a < b then b else a

/-- The clamp `max(0.0, min(1.0, float(...)))` of line 171. -/
def clamp01 (q : ℚ) : ℚ := pyMax 0 (pyMin 1 q)

/-- Lines 159-200 of `_parse_gemini_response` applied to the decoded value: the
    required-field check (a missing field raises `ValueError`, caught into the
    fallback; a non-dict value raises `TypeError` on lookup with the same
    outcome), category coercion, confidence coercion/clamping (an uncoercible
    confidence raises inside `float`, caught into the fallback), and backfill. -/
def processParsed (data : Json) (text : List Char) : ResultDict :=
  match data with
  | Json.obj d =>
    if requiredPresent d then
      let d1 := coerceCategory d
      match pyFloat ((dictGet d1 "confidence").getD (Json.num (mkRat 1 2))) with
      | some q => backfill (dictSet d1 "confidence" (Json.num (clamp01 q))) text
      | none => create_fallback_response text
    else create_fallback_response text
  | _ => create_fallback_response text

/-- `_parse_gemini_response` (gemini_service.py lines 134-208) end to end. The
    Lean function is total: every parse or validation failure lands in the
    deterministic fallback dictionary, as the Python `except` clauses arrange. -/
def parse_gemini_response (t : List Char) : ResultDict :=
  let text := stripMarkers t
  match json_loads text with
  | some data => processParsed data text
  | none => create_fallback_response text

/-- Does the decoded value satisfy "JSON object with the required fields"? -/
def objWithRequired : Json → Bool
  | Json.obj d => requiredPresent d
  | _ => false

/-- Python `waste_data.get("confidence", 0) >= 0.9`: numbers and bools compare,
    anything else raises `TypeError` (`none`). -/
def confAtLeast09 : Json → Option Bool
  | Json.num q => some (decide (mkRat 9 10 ≤ q))
  | Json.bool b => some (decide (mkRat 9 10 ≤ (if b then (1 : ℚ) else 0)))
  | _ => none

/-- `_calculate_points` (gemini_service.py lines 320-344). -/
def calculate_points (d : ResultDict) : Option Nat :=
  match confAtLeast09 ((dictGet d "confidence").getD (Json.num 0)) with
  | none => none
  | some hi =>
    let p1 := if hi then POINTS_CORRECT_DISPOSAL + 10 else POINTS_CORRECT_DISPOSAL
    let p2 := if pyTruthy ((dictGet d "recyclable").getD (Json.bool false)) then p1 + 20 else p1
    let p3 :=
      match dictGet d "category" with
      | some (Json.str c) => if c = "Hazardous Waste" || c = "E-Waste" then p2 + 30 else p2
      | _ => p2
    some p3

/-! ### Level computation of `GET /stats/{user_id}` (waste.py lines 499-514) -/

/-- `for lvl, threshold in sorted(settings.LEVEL_THRESHOLDS.items(), reverse=True):
    if total_points >= threshold: level = lvl; break` with initial `level = 1`. -/
def computeLevel (total : Nat) : Nat :=
  match LEVEL_THRESHOLDS.reverse.find? (fun p => decide (p.2 ≤ total)) with
  | some p => p.1
  | none => 1

/-- `for lvl in sorted(settings.LEVEL_THRESHOLDS.keys()): if lvl > level:
    next = LEVEL_THRESHOLDS[lvl] - total_points; break` with initial `None`. -/
def nextLevelPoints (total : Nat) : Option Int :=
  match LEVEL_THRESHOLDS.find? (fun p => decide (computeLevel total < p.1)) with
  | some p => some ((p.2 : Int) - (total : Int))
  | none => none

/-! ### Upload validation (`utils/image_processor.py`, `validate_image`) -/

def MAX_UPLOAD_SIZE : Nat := 10 * 1024 * 1024

def IMG_MAX_DIMENSION : Nat := 4096

def ALLOWED_IMAGE_TYPES : List String :=
  ["image/jpeg", "image/png", "image/jpg", "image/webp"]

/-- The oversize message `f"File too large. Maximum size is {max_mb:.1f}MB"`
    with `max_mb = MAX_UPLOAD_SIZE / (1024*1024)` (exactly 10.0 at the default). -/
def tooLargeMsg : String :=
  "File too large. Maximum size is " ++ toString (MAX_UPLOAD_SIZE / (1024 * 1024)) ++ ".0MB"

/-- `", ".join(t.split('/')[1].upper() for t in ALLOWED_IMAGE_TYPES)`. -/
def allowedTypesDisplay : String := "JPEG, PNG, JPG, WEBP"

/-- External collaborators of `validate_image`: `magic.from_buffer` content
    sniffing (`none` models the library raising) and PIL `Image.open`/`verify`
    returning the dimensions (`Except.error` models a decode failure). -/
structure ImageLibOracle where
  sniffMime : List Nat → Option String
  openImage : List Nat → Except String (Nat × Nat)

/-- `Path(filename).suffix.lower()` for filenames without directory separators. -/
def pySuffixLower (filename : List Char) : List Char :=
  let rev := filename.reverse
  let extRev := rev.takeWhile (fun c => decide (c ≠ '.'))
  if extRev.isEmpty then []
  else
    match rev.drop extRev.length with
    | [] => []
    | [_] => []
    | _ :: _ :: _ => ('.' :: extRev.reverse).map Char.toLower

/-- `ImageProcessor.validate_image` (image_processor.py lines 48-102), with the
    imaging/MIME libraries supplied as an oracle. Returns Python's
    `(is_valid, error_message)` tuple. -/
def validate_image (o : ImageLibOracle) (file_data : List Nat) (filename : List Char) :
    Bool × Option String :=
  if MAX_UPLOAD_SIZE < file_data.length then (false, some tooLargeMsg)
  else if file_data.length = 0 then (false, some "File is empty")
  else
    let mimeReject : Option (Bool × Option String) :=
      match o.sniffMime file_data with
      | some m =>
        if m ∈ ALLOWED_IMAGE_TYPES then none
        else some (false, some ("Invalid file type. Allowed types: " ++ allowedTypesDisplay))
      | none =>
        if pySuffixLower filename ∈
            [".jpg".toList, ".jpeg".toList, ".png".toList, ".webp".toList] then none
        else some (false, some "Invalid file type")
    match mimeReject with
    | some r => r
    | none =>
      match o.openImage file_data with
      | Except.error e => (false, some ("Invalid or corrupted image file: " ++ e))
      | Except.ok (w, h) =>
        if w < 50 || h < 50 then (false, some "Image too small (minimum 50x50 pixels)")
        else if IMG_MAX_DIMENSION < w || IMG_MAX_DIMENSION < h then
          (false, some "Image too large (maximum 4096x4096 pixels)")
        else (true, none)

/-! ### Base64 request validation (`waste.py` lines 79-89 and 302-364) -/

/-- The pydantic validator `WasteScanRequest.validate_base64`:
    `if not v or len(v) < 100: raise ValueError("Invalid base64 image data")`. -/
def validate_base64 (v : List Char) : Except String (List Char) :=
  if v.isEmpty || v.length < 100 then Except.error "Invalid base64 image data"
  else Except.ok v

/-- The `POST /scan/base64` entry sequencing: the request-body validator runs
    during request parsing, before the handler ever calls `from_base64`; the
    decoder is a parameter precisely because rejection must not consult it. -/
def scan_base64_entry (dec : List Char → Option (List Nat)) (v : List Char) :
    Except String (List Nat) :=
  match validate_base64 v with
  | Except.error e => Except.error e
  | Except.ok s =>
    match dec s with
    | some b => Except.ok b
    | none => Except.error "Invalid base64 string"

/-! ### Dictionary lemmas -/

theorem dictGet_dictSet (d : ResultDict) (k : String) (v : Json) (k2 : String) :
    dictGet (dictSet d k v) k2 = if k2 = k then some v else dictGet d k2 := by
  induction d with
  | nil =>
    simp only [dictSet, dictGet]
    by_cases h : k = k2
    · subst h; simp
    · simp [h, Ne.symm h]
  | cons p rest ih =>
    obtain ⟨k1, v1⟩ := p
    simp only [dictSet]
    by_cases h1 : k1 = k
    · subst h1
      simp only [if_pos rfl, dictGet]
      by_cases h2 : k1 = k2
      · subst h2; simp
      · simp [h2, Ne.symm h2]
    · simp only [if_neg h1, dictGet]
      by_cases h2 : k1 = k2
      · subst h2
        simp [h1]
      · simp [h2, ih]

theorem dictGet_dictSet_self (d : ResultDict) (k : String) (v : Json) :
    dictGet (dictSet d k v) k = some v := by
  simp [dictGet_dictSet]

theorem dictGet_dictSet_ne (d : ResultDict) (k : String) (v : Json) (k2 : String)
    (h : k2 ≠ k) : dictGet (dictSet d k v) k2 = dictGet d k2 := by
  simp [dictGet_dictSet, h]

theorem dictGet_pySetdefault_of_some (d : ResultDict) (k : String) (v w : Json)
    (h : dictGet d k = some w) : dictGet (pySetdefault d k v) k = some w := by
  simp [pySetdefault, h]

theorem dictGet_pySetdefault_of_none (d : ResultDict) (k : String) (v : Json)
    (h : dictGet d k = none) : dictGet (pySetdefault d k v) k = some v := by
  simp [pySetdefault, h, dictGet_dictSet_self]

theorem dictGet_pySetdefault_ne (d : ResultDict) (k : String) (v : Json) (k2 : String)
    (h : k2 ≠ k) : dictGet (pySetdefault d k v) k2 = dictGet d k2 := by
  unfold pySetdefault
  split
  · rfl
  · exact dictGet_dictSet_ne _ _ _ _ h

/-! ### Reconciler stage lemmas -/

/-- The `environmental_impact` entry, if present, is a dict — the only situation
    in which the Python backfill block completes without raising. -/
def envOk (d : ResultDict) : Prop :=
  dictGet d "environmental_impact" = none ∨
    ∃ e, dictGet d "environmental_impact" = some (Json.obj e)

theorem dictGet_coerceCategory_ne (d : ResultDict) (k : String) (h : k ≠ "category") :
    dictGet (coerceCategory d) k = dictGet d k := by
  unfold coerceCategory
  cases hc : dictGet d "category" with
  | none => rfl
  | some j =>
    by_cases hv : catValid j
    · simp [hv]
    · simp [hv, dictGet_dictSet_ne _ _ _ _ h]

theorem coerceCategory_of_invalid (d : ResultDict) (j : Json)
    (h : dictGet d "category" = some j) (hv : catValid j = false) :
    dictGet (coerceCategory d) "category" = some (Json.str "Unknown") := by
  unfold coerceCategory
  rw [h]
  simp [hv, dictGet_dictSet_self]

theorem coerceCategory_mem (d : ResultDict) (j : Json)
    (h : dictGet d "category" = some j) :
    ∃ c, dictGet (coerceCategory d) "category" = some (Json.str c) ∧ c ∈ WASTE_CATEGORIES := by
  unfold coerceCategory
  rw [h]
  by_cases hv : catValid j
  · cases j with
    | str c =>
      refine ⟨c, ?_, ?_⟩
      · simp [hv, h]
      · simpa [catValid] using hv
    | null => simp [catValid] at hv
    | bool b => simp [catValid] at hv
    | num q => simp [catValid] at hv
    | arr xs => simp [catValid] at hv
    | obj fs => simp [catValid] at hv
  · refine ⟨"Unknown", ?_, by decide⟩
    simp [hv, dictGet_dictSet_self]

theorem dictGet_bfSteps_ne (d : ResultDict) (g : Guide) (k : String)
    (h : k ≠ "disposal_steps") : dictGet (bfSteps d g) k = dictGet d k := by
  unfold bfSteps
  split
  · exact dictGet_dictSet_ne _ _ _ _ h
  · rfl

theorem bfSteps_of_truthy (d : ResultDict) (g : Guide) (v : Json)
    (h : dictGet d "disposal_steps" = some v) (ht : pyTruthy v = true) :
    dictGet (bfSteps d g) "disposal_steps" = some v := by
  unfold bfSteps
  rw [h]
  simp [ht, h]

theorem bfSteps_of_missing (d : ResultDict) (g : Guide)
    (h : dictGet d "disposal_steps" = none) :
    dictGet (bfSteps d g) "disposal_steps" = some (Json.arr (g.instructions.map Json.str)) := by
  unfold bfSteps
  rw [h]
  simp [dictGet_dictSet_self]

theorem bfSteps_of_falsy (d : ResultDict) (g : Guide) (v : Json)
    (h : dictGet d "disposal_steps" = some v) (ht : pyTruthy v = false) :
    dictGet (bfSteps d g) "disposal_steps" = some (Json.arr (g.instructions.map Json.str)) := by
  unfold bfSteps
  rw [h]
  simp [ht, dictGet_dictSet_self]

theorem dictGet_bfBin_ne (d : ResultDict) (g : Guide) (k : String)
    (h : k ≠ "bin_color") : dictGet (bfBin d g) k = dictGet d k := by
  unfold bfBin
  split
  · rfl
  · exact dictGet_dictSet_ne _ _ _ _ h

theorem bfBin_of_some (d : ResultDict) (g : Guide) (v : Json)
    (h : dictGet d "bin_color" = some v) : dictGet (bfBin d g) "bin_color" = some v := by
  simp [bfBin, h]

theorem bfBin_of_none (d : ResultDict) (g : Guide)
    (h : dictGet d "bin_color" = none) :
    dictGet (bfBin d g) "bin_color" = some (Json.str g.binColor) := by
  simp [bfBin, h, dictGet_dictSet_self]

theorem dictGet_bfEnvInit_ne (d : ResultDict) (k : String)
    (h : k ≠ "environmental_impact") : dictGet (bfEnvInit d) k = dictGet d k := by
  unfold bfEnvInit
  split
  · rfl
  · exact dictGet_dictSet_ne _ _ _ _ h

theorem bfEnvInit_of_some (d : ResultDict) (w : Json)
    (h : dictGet d "environmental_impact" = some w) :
    dictGet (bfEnvInit d) "environmental_impact" = some w := by
  simp [bfEnvInit, h]

theorem bfEnvInit_of_none (d : ResultDict)
    (h : dictGet d "environmental_impact" = none) :
    dictGet (bfEnvInit d) "environmental_impact" = some (Json.obj []) := by
  simp [bfEnvInit, h, dictGet_dictSet_self]

theorem bfEnv_eq (d : ResultDict) (g : Guide) (text : List Char) (e : ResultDict)
    (h : dictGet d "environmental_impact" = some (Json.obj e)) :
    bfEnv d g text =
      dictSet (dictSet d "environmental_impact"
          (Json.obj (pySetdefault (pySetdefault e "co2_saved_kg" (Json.num g.co2SavedPerKg))
            "decomposition_time" (Json.str g.decompositionTime))))
        "examples" (Json.arr (g.examples.map Json.str)) := by
  unfold bfEnv
  rw [h]

theorem backfill_eq (d : ResultDict) (text : List Char) (c : String) (g : Guide)
    (hc : dictGet d "category" = some (Json.str c)) (hg : guideLookup c = some g) :
    backfill d text = bfEnv (bfEnvInit (bfBin (bfSteps d g) g)) g text := by
  unfold backfill
  rw [hc]
  dsimp only
  rw [hg]

theorem backfill_of_no_guide (d : ResultDict) (text : List Char) (c : String)
    (hc : dictGet d "category" = some (Json.str c)) (hg : guideLookup c = none) :
    backfill d text = d := by
  unfold backfill
  rw [hc]
  dsimp only
  rw [hg]

/-! ### Claims about routes, upload validation and points -/

/-- Claim C10: for every request to POST /scan/base64, the request-body validator
    rejects any image_base64 string that is empty or shorter than 100 characters
    with a validation error, before any base64 decoding is attempted (the decoder
    is universally quantified, so rejection cannot depend on it), even if the
    string is itself valid base64. -/
theorem claim_C10 (dec : List Char → Option (List Nat)) (v : List Char)
    (h : v.length < 100) :
    scan_base64_entry dec v = Except.error "Invalid base64 image data" := by
  unfold scan_base64_entry validate_base64
  have hcond : (v.isEmpty || decide (v.length < 100)) = true := by
    simp [h]
  rw [hcond]
  rfl

/-- Witness for C10: a valid base64 string of length 12 (< 100) is rejected,
    for an arbitrary concrete decoder. -/
theorem claim_C10_witness :
    "QUJDRGFiY2Q=".toList.length < 100 ∧
      scan_base64_entry (fun _ => some []) "QUJDRGFiY2Q=".toList
        = Except.error "Invalid base64 image data" :=
  ⟨by decide, claim_C10 (fun _ => some []) _ (by decide)⟩

/-- Claim C8: upload validation rejects a 0-byte file with an "empty" error,
    rejects a file whose byte length exceeds the configured maximum (default
    10 MiB) with an error message stating the configured limit, and accepts an
    image based on its content-sniffed MIME type regardless of the filename
    extension: a valid PNG within the dimension limits named with a ".txt"
    extension passes validation when content sniffing identifies it as image/png. -/
theorem claim_C8 :
    (∀ (o : ImageLibOracle) (fn : List Char),
        validate_image o [] fn = (false, some "File is empty")) ∧
    tooLargeMsg = "File too large. Maximum size is 10.0MB" ∧
    (∀ (o : ImageLibOracle) (data : List Nat) (fn : List Char),
        MAX_UPLOAD_SIZE < data.length →
        validate_image o data fn = (false, some tooLargeMsg)) ∧
    (∀ (o : ImageLibOracle) (data : List Nat),
        data ≠ [] → data.length ≤ MAX_UPLOAD_SIZE →
        o.sniffMime data = some "image/png" →
        o.openImage data = Except.ok (3000, 3000) →
        validate_image o data "photo.txt".toList = (true, none)) := by
  refine ⟨fun o fn => rfl, by decide, ?_, ?_⟩
  · intro o data fn h
    unfold validate_image
    rw [if_pos h]
  · intro o data hne hle hmime hopen
    have h0 : ¬ data.length = 0 := by
      intro hh
      exact hne (List.length_eq_zero.mp hh)
    have h1 : ¬ MAX_UPLOAD_SIZE < data.length := by omega
    simp only [validate_image, if_neg h1, if_neg h0, hmime, hopen]
    norm_num [ALLOWED_IMAGE_TYPES, IMG_MAX_DIMENSION]

/-- Witness for C8: a 1-byte payload sniffed as image/png with 3000×3000
    dimensions and a ".txt" filename passes, and an 10 MiB + 1 payload is
    rejected with the size message. -/
theorem claim_C8_witness :
    validate_image ⟨fun _ => some "image/png", fun _ => Except.ok (3000, 3000)⟩ [7]
        "photo.txt".toList = (true, none) ∧
      validate_image ⟨fun _ => some "image/png", fun _ => Except.ok (3000, 3000)⟩
        (List.replicate (MAX_UPLOAD_SIZE + 1) 0) "a.png".toList
        = (false, some tooLargeMsg) :=
  ⟨claim_C8.2.2.2 _ _ (by decide) (by decide) rfl rfl,
   claim_C8.2.2.1 _ _ _ (by simp [List.length_replicate])⟩

/-- Claim C7: GET /stats/{user_id} computes level as the highest level whose
    threshold is ≤ total_points against the fixed ascending threshold table, and
    next_level_points as the gap from total_points to the next level's threshold,
    absent (None) at the maximum level; total_points=1999 yields level=4 with
    next_level_points=1, and total_points=10000 yields level=7 with
    next_level_points absent. -/
theorem claim_C7 :
    (∀ total : Nat,
      (∃ thr : Nat, (computeLevel total, thr) ∈ LEVEL_THRESHOLDS ∧ thr ≤ total) ∧
      (∀ l thr : Nat, (l, thr) ∈ LEVEL_THRESHOLDS → thr ≤ total → l ≤ computeLevel total) ∧
      (computeLevel total = 7 → nextLevelPoints total = none) ∧
      (computeLevel total < 7 →
        ∃ thr : Nat, (computeLevel total + 1, thr) ∈ LEVEL_THRESHOLDS ∧
          nextLevelPoints total = some ((thr : Int) - (total : Int)))) ∧
    computeLevel 1999 = 4 ∧ nextLevelPoints 1999 = some 1 ∧
    computeLevel 10000 = 7 ∧ nextLevelPoints 10000 = none := by
  have hrev : LEVEL_THRESHOLDS.reverse
      = [(7, 10000), (6, 5000), (5, 2000), (4, 1000), (3, 500), (2, 200), (1, 0)] := rfl
  refine ⟨?_, by decide, by decide, by decide, by decide⟩
  intro total
  rcases le_or_lt 10000 total with hA | hA
  · have hc : computeLevel total = 7 := by
      unfold computeLevel
      rw [hrev, List.find?_cons_of_pos _ (by simp; omega)]
    refine ⟨⟨10000, by rw [hc]; decide, hA⟩, ?_, ?_, ?_⟩
    · intro l thr hmem hle
      rw [hc]
      simp [LEVEL_THRESHOLDS] at hmem
      rcases hmem with ⟨ha, hb⟩ | ⟨ha, hb⟩ | ⟨ha, hb⟩ | ⟨ha, hb⟩ | ⟨ha, hb⟩ | ⟨ha, hb⟩ | ⟨ha, hb⟩ <;>
        omega
    · intro _
      unfold nextLevelPoints
      rw [hc]
      rw [show LEVEL_THRESHOLDS
            = [(1, 0), (2, 200), (3, 500), (4, 1000), (5, 2000), (6, 5000), (7, 10000)] from rfl]
      rw [List.find?_cons_of_neg _ (by decide), List.find?_cons_of_neg _ (by decide),
          List.find?_cons_of_neg _ (by decide), List.find?_cons_of_neg _ (by decide),
          List.find?_cons_of_neg _ (by decide), List.find?_cons_of_neg _ (by decide),
          List.find?_cons_of_neg _ (by decide)]
      rfl
    · intro hlt
      rw [hc] at hlt
      omega
  · rcases le_or_lt 5000 total with hB | hB
    · have hc : computeLevel total = 6 := by
        unfold computeLevel
        rw [hrev, List.find?_cons_of_neg _ (by simp; omega),
            List.find?_cons_of_pos _ (by simp; omega)]
      refine ⟨⟨5000, by rw [hc]; decide, hB⟩, ?_, ?_, ?_⟩
      · intro l thr hmem hle
        rw [hc]
        simp [LEVEL_THRESHOLDS] at hmem
        rcases hmem with ⟨ha, hb⟩ | ⟨ha, hb⟩ | ⟨ha, hb⟩ | ⟨ha, hb⟩ | ⟨ha, hb⟩ | ⟨ha, hb⟩ | ⟨ha, hb⟩ <;>
          omega
      · intro h7
        rw [hc] at h7
        omega
      · intro _
        refine ⟨10000, by rw [hc]; decide, ?_⟩
        unfold nextLevelPoints
        rw [hc]
        rw [show LEVEL_THRESHOLDS
              = [(1, 0), (2, 200), (3, 500), (4, 1000), (5, 2000), (6, 5000), (7, 10000)] from rfl]
        rw [List.find?_cons_of_neg _ (by decide), List.find?_cons_of_neg _ (by decide),
            List.find?_cons_of_neg _ (by decide), List.find?_cons_of_neg _ (by decide),
            List.find?_cons_of_neg _ (by decide), List.find?_cons_of_neg _ (by decide),
            List.find?_cons_of_pos _ (by decide)]
    · rcases le_or_lt 2000 total with hC | hC
      · have hc : computeLevel total = 5 := by
          unfold computeLevel
          rw [hrev, List.find?_cons_of_neg _ (by simp; omega),
              List.find?_cons_of_neg _ (by simp; omega),
              List.find?_cons_of_pos _ (by simp; omega)]
        refine ⟨⟨2000, by rw [hc]; decide, hC⟩, ?_, ?_, ?_⟩
        · intro l thr hmem hle
          rw [hc]
          simp [LEVEL_THRESHOLDS] at hmem
          rcases hmem with ⟨ha, hb⟩ | ⟨ha, hb⟩ | ⟨ha, hb⟩ | ⟨ha, hb⟩ | ⟨ha, hb⟩ | ⟨ha, hb⟩ | ⟨ha, hb⟩ <;>
            omega
        · intro h7
          rw [hc] at h7
          omega
        · intro _
          refine ⟨5000, by rw [hc]; decide, ?_⟩
          unfold nextLevelPoints
          rw [hc]
          rw [show LEVEL_THRESHOLDS
                = [(1, 0), (2, 200), (3, 500), (4, 1000), (5, 2000), (6, 5000), (7, 10000)] from rfl]
          rw [List.find?_cons_of_neg _ (by decide), List.find?_cons_of_neg _ (by decide),
              List.find?_cons_of_neg _ (by decide), List.find?_cons_of_neg _ (by decide),
              List.find?_cons_of_neg _ (by decide), List.find?_cons_of_pos _ (by decide)]
      · rcases le_or_lt 1000 total with hD | hD
        · have hc : computeLevel total = 4 := by
            unfold computeLevel
            rw [hrev, List.find?_cons_of_neg _ (by simp; omega),
                List.find?_cons_of_neg _ (by simp; omega),
                List.find?_cons_of_neg _ (by simp; omega),
                List.find?_cons_of_pos _ (by simp; omega)]
          refine ⟨⟨1000, by rw [hc]; decide, hD⟩, ?_, ?_, ?_⟩
          · intro l thr hmem hle
            rw [hc]
            simp [LEVEL_THRESHOLDS] at hmem
            rcases hmem with ⟨ha, hb⟩ | ⟨ha, hb⟩ | ⟨ha, hb⟩ | ⟨ha, hb⟩ | ⟨ha, hb⟩ | ⟨ha, hb⟩ | ⟨ha, hb⟩ <;>
              omega
          · intro h7
            rw [hc] at h7
            omega
          · intro _
            refine ⟨2000, by rw [hc]; decide, ?_⟩
            unfold nextLevelPoints
            rw [hc]
            rw [show LEVEL_THRESHOLDS
                  = [(1, 0), (2, 200), (3, 500), (4, 1000), (5, 2000), (6, 5000), (7, 10000)] from rfl]
            rw [List.find?_cons_of_neg _ (by decide), List.find?_cons_of_neg _ (by decide),
                List.find?_cons_of_neg _ (by decide), List.find?_cons_of_neg _ (by decide),
                List.find?_cons_of_pos _ (by decide)]
        · rcases le_or_lt 500 total with hE | hE
          · have hc : computeLevel total = 3 := by
              unfold computeLevel
              rw [hrev, List.find?_cons_of_neg _ (by simp; omega),
                  List.find?_cons_of_neg _ (by simp; omega),
                  List.find?_cons_of_neg _ (by simp; omega),
                  List.find?_cons_of_neg _ (by simp; omega),
                  List.find?_cons_of_pos _ (by simp; omega)]
            refine ⟨⟨500, by rw [hc]; decide, hE⟩, ?_, ?_, ?_⟩
            · intro l thr hmem hle
              rw [hc]
              simp [LEVEL_THRESHOLDS] at hmem
              rcases hmem with ⟨ha, hb⟩ | ⟨ha, hb⟩ | ⟨ha, hb⟩ | ⟨ha, hb⟩ | ⟨ha, hb⟩ | ⟨ha, hb⟩ | ⟨ha, hb⟩ <;>
                omega
            · intro h7
              rw [hc] at h7
              omega
            · intro _
              refine ⟨1000, by rw [hc]; decide, ?_⟩
              unfold nextLevelPoints
              rw [hc]
              rw [show LEVEL_THRESHOLDS
                    = [(1, 0), (2, 200), (3, 500), (4, 1000), (5, 2000), (6, 5000), (7, 10000)] from rfl]
              rw [List.find?_cons_of_neg _ (by decide), List.find?_cons_of_neg _ (by decide),
                  List.find?_cons_of_neg _ (by decide), List.find?_cons_of_pos _ (by decide)]
          · rcases le_or_lt 200 total with hF | hF
            · have hc : computeLevel total = 2 := by
                unfold computeLevel
                rw [hrev, List.find?_cons_of_neg _ (by simp; omega),
                    List.find?_cons_of_neg _ (by simp; omega),
                    List.find?_cons_of_neg _ (by simp; omega),
                    List.find?_cons_of_neg _ (by simp; omega),
                    List.find?_cons_of_neg _ (by simp; omega),
                    List.find?_cons_of_pos _ (by simp; omega)]
              refine ⟨⟨200, by rw [hc]; decide, hF⟩, ?_, ?_, ?_⟩
              · intro l thr hmem hle
                rw [hc]
                simp [LEVEL_THRESHOLDS] at hmem
                rcases hmem with ⟨ha, hb⟩ | ⟨ha, hb⟩ | ⟨ha, hb⟩ | ⟨ha, hb⟩ | ⟨ha, hb⟩ | ⟨ha, hb⟩ | ⟨ha, hb⟩ <;>
                  omega
              · intro h7
                rw [hc] at h7
                omega
              · intro _
                refine ⟨500, by rw [hc]; decide, ?_⟩
                unfold nextLevelPoints
                rw [hc]
                rw [show LEVEL_THRESHOLDS
                      = [(1, 0), (2, 200), (3, 500), (4, 1000), (5, 2000), (6, 5000), (7, 10000)] from rfl]
                rw [List.find?_cons_of_neg _ (by decide), List.find?_cons_of_neg _ (by decide),
                    List.find?_cons_of_pos _ (by decide)]
            · have hc : computeLevel total = 1 := by
                unfold computeLevel
                rw [hrev, List.find?_cons_of_neg _ (by simp; omega),
                    List.find?_cons_of_neg _ (by simp; omega),
                    List.find?_cons_of_neg _ (by simp; omega),
                    List.find?_cons_of_neg _ (by simp; omega),
                    List.find?_cons_of_neg _ (by simp; omega),
                    List.find?_cons_of_neg _ (by simp; omega),
                    List.find?_cons_of_pos _ (by simp)]
              refine ⟨⟨0, by rw [hc]; decide, Nat.zero_le _⟩, ?_, ?_, ?_⟩
              · intro l thr hmem hle
                rw [hc]
                simp [LEVEL_THRESHOLDS] at hmem
                rcases hmem with ⟨ha, hb⟩ | ⟨ha, hb⟩ | ⟨ha, hb⟩ | ⟨ha, hb⟩ | ⟨ha, hb⟩ | ⟨ha, hb⟩ | ⟨ha, hb⟩ <;>
                  omega
              · intro h7
                rw [hc] at h7
                omega
              · intro _
                refine ⟨200, by rw [hc]; decide, ?_⟩
                unfold nextLevelPoints
                rw [hc]
                rw [show LEVEL_THRESHOLDS
                      = [(1, 0), (2, 200), (3, 500), (4, 1000), (5, 2000), (6, 5000), (7, 10000)] from rfl]
                rw [List.find?_cons_of_neg _ (by decide), List.find?_cons_of_pos _ (by decide)]

/-- Witness for C7: the upper-bound part applied at total_points = 1999 with the
    level-4 table entry, and the concrete maximal-level fact. -/
theorem claim_C7_witness :
    4 ≤ computeLevel 1999 ∧ nextLevelPoints 10000 = none :=
  ⟨(claim_C7.1 1999).2.1 4 1000 (by decide) (by decide), claim_C7.2.2.2.2⟩

/-- Claim C4: points_earned is a deterministic pure function of
    (confidence, recyclable, category): base 50, plus 10 if confidence ≥ 0.9,
    plus 20 if recyclable, plus 30 for "Hazardous Waste" or "E-Waste", additive
    and independent with no cap; (0.95, true, "Hazardous Waste") yields 110 and
    (0.5, false, "Paper & Cardboard") yields 50. -/
theorem claim_C4 :
    POINTS_CORRECT_DISPOSAL = 50 ∧
    mkRat 9 10 = (9 : ℚ) / 10 ∧
    (∀ (d : ResultDict) (q : ℚ) (r : Bool) (c : String),
      dictGet d "confidence" = some (Json.num q) →
      dictGet d "recyclable" = some (Json.bool r) →
      dictGet d "category" = some (Json.str c) →
      calculate_points d =
        some (50 + (if mkRat 9 10 ≤ q then 10 else 0) + (if r then 20 else 0)
          + (if c = "Hazardous Waste" ∨ c = "E-Waste" then 30 else 0))) ∧
    calculate_points [("confidence", Json.num (mkRat 19 20)),
      ("recyclable", Json.bool true), ("category", Json.str "Hazardous Waste")] = some 110 ∧
    calculate_points [("confidence", Json.num (mkRat 1 2)),
      ("recyclable", Json.bool false), ("category", Json.str "Paper & Cardboard")] = some 50 := by
  refine ⟨rfl, by rw [Rat.mkRat_eq_div]; norm_num, ?_, by decide, by decide⟩
  intro d q r c h1 h2 h3
  unfold calculate_points
  rw [h1, h2, h3]
  simp only [Option.getD_some]
  by_cases hq : mkRat 9 10 ≤ q <;> by_cases hcat : c = "Hazardous Waste" ∨ c = "E-Waste" <;>
    cases r <;>
      simp [confAtLeast09, pyTruthy, POINTS_CORRECT_DISPOSAL, hq, hcat]

/-- Witness for C4: the pure-function characterization applied at the concrete
    110-point example. -/
theorem claim_C4_witness :
    calculate_points [("confidence", Json.num (mkRat 19 20)),
      ("recyclable", Json.bool true), ("category", Json.str "Hazardous Waste")]
      = some (50 + (if mkRat 9 10 ≤ mkRat 19 20 then 10 else 0) + (if true then 20 else 0)
          + (if ("Hazardous Waste" : String) = "Hazardous Waste" ∨
                ("Hazardous Waste" : String) = "E-Waste" then 30 else 0)) :=
  claim_C4.2.2.1 _ (mkRat 19 20) true "Hazardous Waste" rfl rfl rfl

/-! ### Clamp and processParsed unfolding lemmas -/

theorem clamp01_eq (q : ℚ) : clamp01 q = max 0 (min 1 q) := by
  unfold clamp01 pyMax pyMin
  rcases lt_or_ge q 1 with h1 | h1
  · rw [if_pos h1, min_eq_right (le_of_lt h1)]
    rcases lt_or_ge 0 q with h2 | h2
    · rw [if_pos h2, max_eq_right (le_of_lt h2)]
    · rw [if_neg (not_lt.mpr h2), max_eq_left h2]
  · rw [if_neg (not_lt.mpr h1), min_eq_left h1, if_pos one_pos,
      max_eq_right (le_of_lt one_pos)]

theorem requiredPresent_of (d : ResultDict)
    (h1 : (dictGet d "item_name").isSome = true)
    (h2 : (dictGet d "category").isSome = true)
    (h3 : (dictGet d "confidence").isSome = true) : requiredPresent d = true := by
  simp [requiredPresent, h1, h2, h3]

theorem conf_lookup (d : ResultDict) (v : Json) (h3 : dictGet d "confidence" = some v) :
    (dictGet (coerceCategory d) "confidence").getD (Json.num (mkRat 1 2)) = v := by
  rw [dictGet_coerceCategory_ne d _ (by decide), h3]
  rfl

theorem processParsed_of_float_some (d : ResultDict) (text : List Char) (q : ℚ)
    (hreq : requiredPresent d = true)
    (hq : pyFloat ((dictGet (coerceCategory d) "confidence").getD (Json.num (mkRat 1 2)))
      = some q) :
    processParsed (Json.obj d) text =
      backfill (dictSet (coerceCategory d) "confidence" (Json.num (clamp01 q))) text := by
  simp only [processParsed]
  rw [if_pos hreq, hq]

theorem processParsed_of_float_none (d : ResultDict) (text : List Char)
    (hreq : requiredPresent d = true)
    (hq : pyFloat ((dictGet (coerceCategory d) "confidence").getD (Json.num (mkRat 1 2)))
      = none) :
    processParsed (Json.obj d) text = create_fallback_response text := by
  simp only [processParsed]
  rw [if_pos hreq, hq]

theorem processParsed_of_not_required (d : ResultDict) (text : List Char)
    (hreq : requiredPresent d = false) :
    processParsed (Json.obj d) text = create_fallback_response text := by
  simp only [processParsed]
  rw [if_neg (by simp [hreq])]

theorem parse_eq_of_loads_none (t : List Char)
    (h : json_loads (stripMarkers t) = none) :
    parse_gemini_response t = create_fallback_response (stripMarkers t) := by
  show (match json_loads (stripMarkers t) with
    | some data => processParsed data (stripMarkers t)
    | none => create_fallback_response (stripMarkers t)) = _
  rw [h]

theorem parse_eq_of_loads_some (t : List Char) (data : Json)
    (h : json_loads (stripMarkers t) = some data) :
    parse_gemini_response t = processParsed data (stripMarkers t) := by
  show (match json_loads (stripMarkers t) with
    | some data => processParsed data (stripMarkers t)
    | none => create_fallback_response (stripMarkers t)) = _
  rw [h]

/-! ### Backfill chain lemmas -/

theorem env_after_chain (d : ResultDict) (g : Guide) (henv : envOk d) :
    ∃ e, dictGet (bfEnvInit (bfBin (bfSteps d g) g)) "environmental_impact"
      = some (Json.obj e) := by
  have hpres : dictGet (bfBin (bfSteps d g) g) "environmental_impact"
      = dictGet d "environmental_impact" := by
    rw [dictGet_bfBin_ne _ _ _ (by decide), dictGet_bfSteps_ne _ _ _ (by decide)]
  rcases henv with h | ⟨e, h⟩
  · exact ⟨[], bfEnvInit_of_none _ (hpres.trans h)⟩
  · exact ⟨e, bfEnvInit_of_some _ _ (hpres.trans h)⟩

theorem dictGet_backfill_ne (d : ResultDict) (text : List Char) (k : String)
    (hd : k ≠ "disposal_steps") (hb : k ≠ "bin_color")
    (he : k ≠ "environmental_impact") (hx : k ≠ "examples") (henv : envOk d) :
    dictGet (backfill d text) k = dictGet d k := by
  cases hcat : dictGet d "category" with
  | none => unfold backfill; rw [hcat]
  | some j =>
    cases j with
    | str c =>
      cases hg : guideLookup c with
      | none => rw [backfill_of_no_guide d text c hcat hg]
      | some g =>
        rw [backfill_eq d text c g hcat hg]
        obtain ⟨e, he2⟩ := env_after_chain d g henv
        unfold bfEnv
        rw [he2]
        rw [dictGet_dictSet_ne _ _ _ _ hx, dictGet_dictSet_ne _ _ _ _ he,
            dictGet_bfEnvInit_ne _ _ he, dictGet_bfBin_ne _ _ _ hb,
            dictGet_bfSteps_ne _ _ _ hd]
    | null => unfold backfill; rw [hcat]
    | bool b => unfold backfill; rw [hcat]
    | num q => unfold backfill; rw [hcat]
    | arr xs => unfold backfill; rw [hcat]
    | obj fs => unfold backfill; rw [hcat]

theorem backfill_category_or_fallback (d : ResultDict) (text : List Char) :
    dictGet (backfill d text) "category" = dictGet d "category" ∨
      backfill d text = create_fallback_response text := by
  cases hcat : dictGet d "category" with
  | none => left; unfold backfill; rw [hcat]; exact hcat
  | some j =>
    cases j with
    | str c =>
      cases hg : guideLookup c with
      | none => left; rw [backfill_of_no_guide d text c hcat hg]; exact hcat
      | some g =>
        rw [backfill_eq d text c g hcat hg]
        unfold bfEnv
        cases he2 : dictGet (bfEnvInit (bfBin (bfSteps d g) g)) "environmental_impact" with
        | none => right; rfl
        | some w =>
          cases w with
          | obj e =>
            left
            rw [dictGet_dictSet_ne _ _ _ _ (by decide), dictGet_dictSet_ne _ _ _ _ (by decide),
                dictGet_bfEnvInit_ne _ _ (by decide), dictGet_bfBin_ne _ _ _ (by decide),
                dictGet_bfSteps_ne _ _ _ (by decide)]
            exact hcat
          | null => right; rfl
          | bool b => right; rfl
          | num q => right; rfl
          | str s => right; rfl
          | arr xs => right; rfl
    | null => left; unfold backfill; rw [hcat]; exact hcat
    | bool b => left; unfold backfill; rw [hcat]; exact hcat
    | num q => left; unfold backfill; rw [hcat]; exact hcat
    | arr xs => left; unfold backfill; rw [hcat]; exact hcat
    | obj fs => left; unfold backfill; rw [hcat]; exact hcat

/-! ### Claims about the reconciler -/

/-- Claim C1 (amended): for every raw AI response text that cannot be parsed into
    a JSON object with the required fields {item_name, category, confidence}, the
    reconciler does not raise past its boundary (it is a total function whose
    failure paths all land here) and returns the deterministic fallback result
    with item_name="Unknown Item", category="Unknown", confidence=0.3,
    recyclable=false, bin_color="GREY", zeroed co2_saved_kg, and a
    raw_ai_response field holding the first at-most-500 characters of the
    marker-stripped response text (a substring of the raw text) — not of the raw
    text itself, which differs when fenced markers are present. -/
theorem claim_C1 (t : List Char)
    (h : json_loads (stripMarkers t) = none ∨
      ∃ v, json_loads (stripMarkers t) = some v ∧ objWithRequired v = false) :
    parse_gemini_response t = create_fallback_response (stripMarkers t) ∧
    dictGet (parse_gemini_response t) "item_name" = some (Json.str "Unknown Item") ∧
    dictGet (parse_gemini_response t) "category" = some (Json.str "Unknown") ∧
    dictGet (parse_gemini_response t) "confidence" = some (Json.num (mkRat 3 10)) ∧
    dictGet (parse_gemini_response t) "recyclable" = some (Json.bool false) ∧
    dictGet (parse_gemini_response t) "bin_color" = some (Json.str "GREY") ∧
    (∃ e, dictGet (parse_gemini_response t) "environmental_impact" = some (Json.obj e) ∧
      dictGet e "co2_saved_kg" = some (Json.num 0)) ∧
    dictGet (parse_gemini_response t) "raw_ai_response"
      = some (Json.str (String.mk ((stripMarkers t).take 500))) ∧
    ((stripMarkers t).take 500).length ≤ 500 := by
  have hfb : parse_gemini_response t = create_fallback_response (stripMarkers t) := by
    rcases h with h | ⟨v, hv, hreq⟩
    · exact parse_eq_of_loads_none t h
    · rw [parse_eq_of_loads_some t v hv]
      cases v with
      | obj d =>
        have hr : requiredPresent d = false := by simpa [objWithRequired] using hreq
        exact processParsed_of_not_required d _ hr
      | null => rfl
      | bool b => rfl
      | num q => rfl
      | str s => rfl
      | arr xs => rfl
  rw [hfb]
  refine ⟨rfl, rfl, rfl, rfl, rfl, rfl, ⟨_, rfl, rfl⟩, rfl, ?_⟩
  rw [List.length_take]
  exact min_le_left _ _

/-- Witness for C1: the unparseable text "not json" produces the fallback with
    category "Unknown" and its own first 500 characters as raw_ai_response. -/
theorem claim_C1_witness :
    (json_loads (stripMarkers "not json".toList) = none) ∧
      dictGet (parse_gemini_response "not json".toList) "category"
        = some (Json.str "Unknown") ∧
      dictGet (parse_gemini_response "not json".toList) "raw_ai_response"
        = some (Json.str (String.mk ((stripMarkers "not json".toList).take 500))) :=
  ⟨rfl, (claim_C1 "not json".toList (Or.inl rfl)).2.2.1,
    (claim_C1 "not json".toList (Or.inl rfl)).2.2.2.2.2.2.2.1⟩

/-- Counterexample to C1 as stated: for fenced-marker-wrapped unparseable text,
    raw_ai_response is the stripped inner text "not json", which is not the
    first 500 characters of the raw text (it is not even a prefix of it). -/
theorem claim_C1_counterexample :
    dictGet (parse_gemini_response "```json\nnot json\n```".toList) "raw_ai_response"
        = some (Json.str "not json") ∧
      "not json" ≠ String.mk ("```json\nnot json\n```".toList.take 500) ∧
      "not json".toList.isPrefixOf "```json\nnot json\n```".toList = false :=
  ⟨rfl, by decide, by decide⟩

/-- Claim C2 (amended): for every successfully parsed AI response, a coercible
    confidence is clamped into [0.0, 1.0] (above 1.0 to 1.0, below 0.0 to 0.0);
    a confidence value that is NOT coercible to a number does not yield a 0.5
    default — the `float` call raises and the reconciler returns the fallback
    result, whose confidence is 0.3. -/
theorem claim_C2 (d : ResultDict) (text : List Char) (v : Json)
    (h1 : (dictGet d "item_name").isSome = true)
    (h2 : (dictGet d "category").isSome = true)
    (h3 : dictGet d "confidence" = some v)
    (henv : envOk d) :
    (∀ q : ℚ, pyFloat v = some q →
      dictGet (processParsed (Json.obj d) text) "confidence"
          = some (Json.num (max 0 (min 1 q))) ∧
        0 ≤ max 0 (min 1 q) ∧ max 0 (min 1 q) ≤ 1 ∧
        (1 ≤ q → max 0 (min 1 q) = 1) ∧ (q ≤ 0 → max 0 (min 1 q) = 0)) ∧
    (pyFloat v = none →
      processParsed (Json.obj d) text = create_fallback_response text ∧
        dictGet (processParsed (Json.obj d) text) "confidence"
          = some (Json.num (mkRat 3 10))) := by
  have hreq : requiredPresent d = true := requiredPresent_of d h1 h2 (by simp [h3])
  have hcl := conf_lookup d v h3
  constructor
  · intro q hq
    have hps := processParsed_of_float_some d text q hreq (by rw [hcl]; exact hq)
    rw [hps]
    have henv2 : envOk (dictSet (coerceCategory d) "confidence" (Json.num (clamp01 q))) := by
      unfold envOk at henv ⊢
      rw [dictGet_dictSet_ne _ _ _ _ (by decide), dictGet_coerceCategory_ne d _ (by decide)]
      exact henv
    rw [dictGet_backfill_ne _ _ _ (by decide) (by decide) (by decide) (by decide) henv2,
        dictGet_dictSet_self, clamp01_eq]
    refine ⟨rfl, le_max_left _ _, max_le (by norm_num) (min_le_left _ _), ?_, ?_⟩
    · intro hq1
      rw [min_eq_left hq1]
      norm_num
    · intro hq0
      rw [min_eq_right (le_trans hq0 (by norm_num)), max_eq_left hq0]
  · intro hq
    have hps := processParsed_of_float_none d text hreq (by rw [hcl]; exact hq)
    rw [hps]
    exact ⟨rfl, rfl⟩

/-- Witness for C2: a raw confidence of 2 is clamped to max 0 (min 1 2) = 1. -/
theorem claim_C2_witness :
    dictGet (processParsed (Json.obj [("item_name", Json.str "X"),
        ("category", Json.str "Unknown"), ("confidence", Json.num 2)]) [])
        "confidence" = some (Json.num (max 0 (min 1 2))) :=
  ((claim_C2 [("item_name", Json.str "X"), ("category", Json.str "Unknown"),
      ("confidence", Json.num 2)] [] (Json.num 2) rfl rfl rfl (Or.inl rfl)).1 2 rfl).1

/-- Counterexample to C2 as stated: a non-numeric string confidence "abc" does
    not default to 0.5 — the result is the fallback with confidence 0.3. -/
theorem claim_C2_counterexample :
    dictGet (parse_gemini_response
        "\x7b\"item_name\": \"X\", \"category\": \"Unknown\", \"confidence\": \"abc\"\x7d".toList)
        "confidence" = some (Json.num (mkRat 3 10)) ∧
      mkRat 3 10 ≠ mkRat 1 2 ∧
      mkRat 3 10 = (3 : ℚ) / 10 ∧ mkRat 1 2 = (1 : ℚ) / 2 :=
  ⟨rfl, by decide, by rw [Rat.mkRat_eq_div]; norm_num, by rw [Rat.mkRat_eq_div]; norm_num⟩

/-- Claim C3: every reconciler result (parsed or fallback) carries a category
    from the fixed 8-entry set, and a parsed response whose category is not in
    the set has it overwritten with "Unknown". -/
theorem claim_C3 :
    (∀ t : List Char, ∃ c, dictGet (parse_gemini_response t) "category"
        = some (Json.str c) ∧ c ∈ WASTE_CATEGORIES) ∧
    (∀ (d : ResultDict) (text : List Char) (j : Json),
      requiredPresent d = true → dictGet d "category" = some j → catValid j = false →
      dictGet (processParsed (Json.obj d) text) "category"
        = some (Json.str "Unknown")) := by
  constructor
  · intro t
    cases hj : json_loads (stripMarkers t) with
    | none =>
      rw [parse_eq_of_loads_none t hj]
      exact ⟨"Unknown", rfl, by decide⟩
    | some v =>
      rw [parse_eq_of_loads_some t v hj]
      cases v with
      | obj d =>
        by_cases hreq : requiredPresent d = true
        · cases hq : pyFloat ((dictGet (coerceCategory d) "confidence").getD
              (Json.num (mkRat 1 2))) with
          | none =>
            rw [processParsed_of_float_none d _ hreq hq]
            exact ⟨"Unknown", rfl, by decide⟩
          | some q =>
            rw [processParsed_of_float_some d _ q hreq hq]
            obtain ⟨jv, hjv⟩ : ∃ jv, dictGet d "category" = some jv := by
              have hh := hreq
              simp only [requiredPresent, Bool.and_eq_true] at hh
              exact Option.isSome_iff_exists.mp hh.1.2
            obtain ⟨c, hc, hcmem⟩ := coerceCategory_mem d jv hjv
            have hc2 : dictGet (dictSet (coerceCategory d) "confidence"
                (Json.num (clamp01 q))) "category" = some (Json.str c) := by
              rw [dictGet_dictSet_ne _ _ _ _ (by decide)]
              exact hc
            rcases backfill_category_or_fallback (dictSet (coerceCategory d) "confidence"
                (Json.num (clamp01 q))) (stripMarkers t) with hpres | hfb
            · exact ⟨c, by rw [hpres]; exact hc2, hcmem⟩
            · exact ⟨"Unknown", by rw [hfb]; rfl, by decide⟩
        · simp only [Bool.not_eq_true] at hreq
          rw [processParsed_of_not_required d _ hreq]
          exact ⟨"Unknown", rfl, by decide⟩
      | null => exact ⟨"Unknown", rfl, by decide⟩
      | bool b => exact ⟨"Unknown", rfl, by decide⟩
      | num q => exact ⟨"Unknown", rfl, by decide⟩
      | str s => exact ⟨"Unknown", rfl, by decide⟩
      | arr xs => exact ⟨"Unknown", rfl, by decide⟩
  · intro d text j hreq hj hv
    cases hq : pyFloat ((dictGet (coerceCategory d) "confidence").getD
        (Json.num (mkRat 1 2))) with
    | none =>
      rw [processParsed_of_float_none d text hreq hq]
      rfl
    | some q =>
      rw [processParsed_of_float_some d text q hreq hq]
      have hc2 : dictGet (dictSet (coerceCategory d) "confidence"
          (Json.num (clamp01 q))) "category" = some (Json.str "Unknown") := by
        rw [dictGet_dictSet_ne _ _ _ _ (by decide)]
        exact coerceCategory_of_invalid d j hj hv
      rcases backfill_category_or_fallback (dictSet (coerceCategory d) "confidence"
          (Json.num (clamp01 q))) text with hpres | hfb
      · rw [hpres]
        exact hc2
      · rw [hfb]
        rfl

/-- Witness for C3: an unrecognized category "Martian Debris" is overwritten
    with "Unknown". -/
theorem claim_C3_witness :
    dictGet (processParsed (Json.obj [("item_name", Json.str "X"),
        ("category", Json.str "Martian Debris"), ("confidence", Json.num 1)]) [])
        "category" = some (Json.str "Unknown") :=
  claim_C3.2 _ [] (Json.str "Martian Debris") (by decide) rfl (by decide)

theorem cat_present_of_coerce (d : ResultDict) (c : String)
    (hcoerce : dictGet (coerceCategory d) "category" = some (Json.str c)) :
    (dictGet d "category").isSome = true := by
  cases hdc : dictGet d "category" with
  | some j => simp [hdc]
  | none =>
    exfalso
    have hid : coerceCategory d = d := by
      unfold coerceCategory
      rw [hdc]
    rw [hid, hdc] at hcoerce
    exact Option.noConfusion hcoerce

/-- Claim C9: the static disposal guide covers exactly 7 of the 8 fixed
    categories — "Unknown" has no entry — so a parsed response whose (possibly
    coerced) category is "Unknown" receives no backfill at all: disposal_steps,
    bin_color and environmental_impact stay exactly as the AI supplied them
    (possibly absent), and no examples field is attached. -/
theorem claim_C9 :
    WASTE_DISPOSAL_GUIDES.map Prod.fst =
      ["Recyclable Plastic", "Paper & Cardboard", "Organic/Compost", "Hazardous Waste",
       "Metal & Glass", "E-Waste", "Non-Recyclable"] ∧
    WASTE_DISPOSAL_GUIDES.length = 7 ∧
    (∀ c ∈ WASTE_DISPOSAL_GUIDES.map Prod.fst, c ∈ WASTE_CATEGORIES ∧ c ≠ "Unknown") ∧
    guideLookup "Unknown" = none ∧
    (∀ (d : ResultDict) (text : List Char) (v : Json),
      (dictGet d "item_name").isSome = true →
      dictGet d "confidence" = some v →
      (∃ q, pyFloat v = some q) →
      dictGet (coerceCategory d) "category" = some (Json.str "Unknown") →
      dictGet (processParsed (Json.obj d) text) "disposal_steps"
          = dictGet d "disposal_steps" ∧
        dictGet (processParsed (Json.obj d) text) "bin_color" = dictGet d "bin_color" ∧
        dictGet (processParsed (Json.obj d) text) "environmental_impact"
          = dictGet d "environmental_impact" ∧
        dictGet (processParsed (Json.obj d) text) "examples" = dictGet d "examples" ∧
        dictGet (processParsed (Json.obj d) text) "category"
          = some (Json.str "Unknown")) := by
  refine ⟨by decide, by decide, by decide, by decide, ?_⟩
  intro d text v h1 h3 hfl hcoerce
  have hcat := cat_present_of_coerce d "Unknown" hcoerce
  have hreq : requiredPresent d = true := requiredPresent_of d h1 hcat (by simp [h3])
  obtain ⟨q, hq⟩ := hfl
  have hps := processParsed_of_float_some d text q hreq
    (by rw [conf_lookup d v h3]; exact hq)
  rw [hps]
  have hc2 : dictGet (dictSet (coerceCategory d) "confidence" (Json.num (clamp01 q)))
      "category" = some (Json.str "Unknown") := by
    rw [dictGet_dictSet_ne _ _ _ _ (by decide)]
    exact hcoerce
  rw [backfill_of_no_guide _ text "Unknown" hc2 rfl]
  refine ⟨?_, ?_, ?_, ?_, hc2⟩ <;>
    rw [dictGet_dictSet_ne _ _ _ _ (by decide), dictGet_coerceCategory_ne d _ (by decide)]

/-- Witness for C9: an unrecognized category is coerced to "Unknown" and the
    AI-supplied disposal_steps survive untouched. -/
theorem claim_C9_witness :
    dictGet (processParsed (Json.obj [("item_name", Json.str "Mystery"),
        ("category", Json.str "Alien Artifact"), ("confidence", Json.num (mkRat 4 5)),
        ("disposal_steps", Json.arr [Json.str "step one"])]) [])
        "disposal_steps" = some (Json.arr [Json.str "step one"]) := by
  have h := (claim_C9.2.2.2.2 [("item_name", Json.str "Mystery"),
      ("category", Json.str "Alien Artifact"), ("confidence", Json.num (mkRat 4 5)),
      ("disposal_steps", Json.arr [Json.str "step one"])] [] (Json.num (mkRat 4 5))
      rfl rfl ⟨mkRat 4 5, rfl⟩ rfl).1
  rw [h]
  rfl

/-- Claim C5: for every successfully parsed response whose category has an entry
    in the static disposal guide, the reconciler backfills only missing data:
    disposal_steps from the guide only if absent or falsy/empty, bin_color only
    if absent, environmental_impact.co2_saved_kg and .decomposition_time only
    if absent (AI-supplied values are never substituted by the guide's), and the
    guide's examples list is attached to the result. -/
theorem claim_C5 (d : ResultDict) (text : List Char) (v : Json) (c : String) (g : Guide)
    (h1 : (dictGet d "item_name").isSome = true)
    (h3 : dictGet d "confidence" = some v)
    (hfl : ∃ q, pyFloat v = some q)
    (hcoerce : dictGet (coerceCategory d) "category" = some (Json.str c))
    (hg : guideLookup c = some g)
    (henv : envOk d) :
    (∀ w, dictGet d "disposal_steps" = some w → pyTruthy w = true →
        dictGet (processParsed (Json.obj d) text) "disposal_steps" = some w) ∧
    (dictGet d "disposal_steps" = none →
        dictGet (processParsed (Json.obj d) text) "disposal_steps"
          = some (Json.arr (g.instructions.map Json.str))) ∧
    (∀ w, dictGet d "disposal_steps" = some w → pyTruthy w = false →
        dictGet (processParsed (Json.obj d) text) "disposal_steps"
          = some (Json.arr (g.instructions.map Json.str))) ∧
    (∀ w, dictGet d "bin_color" = some w →
        dictGet (processParsed (Json.obj d) text) "bin_color" = some w) ∧
    (dictGet d "bin_color" = none →
        dictGet (processParsed (Json.obj d) text) "bin_color"
          = some (Json.str g.binColor)) ∧
    (∀ e, dictGet d "environmental_impact" = some (Json.obj e) →
        dictGet (processParsed (Json.obj d) text) "environmental_impact"
          = some (Json.obj (pySetdefault (pySetdefault e "co2_saved_kg"
              (Json.num g.co2SavedPerKg)) "decomposition_time"
              (Json.str g.decompositionTime)))) ∧
    (∀ e w, dictGet d "environmental_impact" = some (Json.obj e) →
        dictGet e "co2_saved_kg" = some w →
        ∃ e2, dictGet (processParsed (Json.obj d) text) "environmental_impact"
            = some (Json.obj e2) ∧ dictGet e2 "co2_saved_kg" = some w) ∧
    (∀ e w, dictGet d "environmental_impact" = some (Json.obj e) →
        dictGet e "decomposition_time" = some w →
        ∃ e2, dictGet (processParsed (Json.obj d) text) "environmental_impact"
            = some (Json.obj e2) ∧ dictGet e2 "decomposition_time" = some w) ∧
    (dictGet d "environmental_impact" = none →
        dictGet (processParsed (Json.obj d) text) "environmental_impact"
          = some (Json.obj [("co2_saved_kg", Json.num g.co2SavedPerKg),
              ("decomposition_time", Json.str g.decompositionTime)])) ∧
    dictGet (processParsed (Json.obj d) text) "examples"
      = some (Json.arr (g.examples.map Json.str)) := by
  have hcat := cat_present_of_coerce d c hcoerce
  have hreq : requiredPresent d = true := requiredPresent_of d h1 hcat (by simp [h3])
  obtain ⟨q, hq⟩ := hfl
  have hps := processParsed_of_float_some d text q hreq
    (by rw [conf_lookup d v h3]; exact hq)
  rw [hps]
  have hpres : ∀ k : String, k ≠ "confidence" → k ≠ "category" →
      dictGet (dictSet (coerceCategory d) "confidence" (Json.num (clamp01 q))) k
        = dictGet d k := by
    intro k hk1 hk2
    rw [dictGet_dictSet_ne _ _ _ _ hk1, dictGet_coerceCategory_ne d _ hk2]
  have hc2 : dictGet (dictSet (coerceCategory d) "confidence" (Json.num (clamp01 q)))
      "category" = some (Json.str c) := by
    rw [dictGet_dictSet_ne _ _ _ _ (by decide)]
    exact hcoerce
  rw [backfill_eq _ text c g hc2 hg]
  have hsteps2 : dictGet (dictSet (coerceCategory d) "confidence" (Json.num (clamp01 q)))
      "disposal_steps" = dictGet d "disposal_steps" := hpres _ (by decide) (by decide)
  have hbin_pre : dictGet (bfSteps (dictSet (coerceCategory d) "confidence"
      (Json.num (clamp01 q))) g) "bin_color" = dictGet d "bin_color" :=
    (dictGet_bfSteps_ne _ _ _ (by decide)).trans (hpres _ (by decide) (by decide))
  have henv_pre : dictGet (bfBin (bfSteps (dictSet (coerceCategory d) "confidence"
      (Json.num (clamp01 q))) g) g) "environmental_impact"
      = dictGet d "environmental_impact" := by
    rw [dictGet_bfBin_ne _ _ _ (by decide), dictGet_bfSteps_ne _ _ _ (by decide)]
    exact hpres _ (by decide) (by decide)
  obtain ⟨E, hE, hEspec⟩ : ∃ E, dictGet (bfEnvInit (bfBin (bfSteps (dictSet
      (coerceCategory d) "confidence" (Json.num (clamp01 q))) g) g))
      "environmental_impact" = some (Json.obj E) ∧
      ((dictGet d "environmental_impact" = none ∧ E = []) ∨
        dictGet d "environmental_impact" = some (Json.obj E)) := by
    rcases henv with hn | ⟨e, he⟩
    · exact ⟨[], bfEnvInit_of_none _ (henv_pre.trans hn), Or.inl ⟨hn, rfl⟩⟩
    · exact ⟨e, bfEnvInit_of_some _ _ (henv_pre.trans he), Or.inr he⟩
  rw [bfEnv_eq _ _ _ _ hE]
  refine ⟨?_, ?_, ?_, ?_, ?_, ?_, ?_, ?_, ?_, ?_⟩
  · intro w hw ht
    rw [dictGet_dictSet_ne _ _ _ _ (by decide), dictGet_dictSet_ne _ _ _ _ (by decide),
        dictGet_bfEnvInit_ne _ _ (by decide), dictGet_bfBin_ne _ _ _ (by decide)]
    exact bfSteps_of_truthy _ g w (by rw [hsteps2]; exact hw) ht
  · intro hw
    rw [dictGet_dictSet_ne _ _ _ _ (by decide), dictGet_dictSet_ne _ _ _ _ (by decide),
        dictGet_bfEnvInit_ne _ _ (by decide), dictGet_bfBin_ne _ _ _ (by decide)]
    exact bfSteps_of_missing _ g (by rw [hsteps2]; exact hw)
  · intro w hw ht
    rw [dictGet_dictSet_ne _ _ _ _ (by decide), dictGet_dictSet_ne _ _ _ _ (by decide),
        dictGet_bfEnvInit_ne _ _ (by decide), dictGet_bfBin_ne _ _ _ (by decide)]
    exact bfSteps_of_falsy _ g w (by rw [hsteps2]; exact hw) ht
  · intro w hw
    rw [dictGet_dictSet_ne _ _ _ _ (by decide), dictGet_dictSet_ne _ _ _ _ (by decide),
        dictGet_bfEnvInit_ne _ _ (by decide)]
    exact bfBin_of_some _ g w (by rw [hbin_pre]; exact hw)
  · intro hw
    rw [dictGet_dictSet_ne _ _ _ _ (by decide), dictGet_dictSet_ne _ _ _ _ (by decide),
        dictGet_bfEnvInit_ne _ _ (by decide)]
    exact bfBin_of_none _ g (by rw [hbin_pre]; exact hw)
  · intro e he
    rcases hEspec with ⟨hn, _⟩ | hsome
    · rw [hn] at he
      exact Option.noConfusion he
    · rw [hsome] at he
      have hEe : E = e := by
        injection he with he2
        injection he2
      subst hEe
      rw [dictGet_dictSet_ne _ _ _ _ (by decide), dictGet_dictSet_self]
  · intro e w he hw
    rcases hEspec with ⟨hn, _⟩ | hsome
    · rw [hn] at he
      exact Option.noConfusion he
    · rw [hsome] at he
      have hEe : E = e := by
        injection he with he2
        injection he2
      subst hEe
      refine ⟨pySetdefault (pySetdefault E "co2_saved_kg" (Json.num g.co2SavedPerKg))
          "decomposition_time" (Json.str g.decompositionTime), ?_, ?_⟩
      · rw [dictGet_dictSet_ne _ _ _ _ (by decide), dictGet_dictSet_self]
      · rw [dictGet_pySetdefault_ne _ _ _ _ (by decide)]
        exact dictGet_pySetdefault_of_some _ _ _ _ hw
  · intro e w he hw
    rcases hEspec with ⟨hn, _⟩ | hsome
    · rw [hn] at he
      exact Option.noConfusion he
    · rw [hsome] at he
      have hEe : E = e := by
        injection he with he2
        injection he2
      subst hEe
      refine ⟨pySetdefault (pySetdefault E "co2_saved_kg" (Json.num g.co2SavedPerKg))
          "decomposition_time" (Json.str g.decompositionTime), ?_, ?_⟩
      · rw [dictGet_dictSet_ne _ _ _ _ (by decide), dictGet_dictSet_self]
      · exact dictGet_pySetdefault_of_some _ _ _ _
          (by rw [dictGet_pySetdefault_ne _ _ _ _ (by decide)]; exact hw)
  · intro hw
    rcases hEspec with ⟨-, hEnil⟩ | hsome
    · subst hEnil
      rw [dictGet_dictSet_ne _ _ _ _ (by decide), dictGet_dictSet_self]
      rfl
    · rw [hw] at hsome
      exact Option.noConfusion hsome
  · rw [dictGet_dictSet_self]

/-! ### Marker-stripping lemmas for claim C6 -/

theorem pyFind_of_matches (s pat : List Char) (h : matchesAt pat s = true) :
    pyFind s pat = some 0 := by
  cases s <;> simp [pyFind, h]

theorem pyFind_cons_of_not_matches (x : Char) (t pat : List Char)
    (h : matchesAt pat (x :: t) = false) :
    pyFind (x :: t) pat = (pyFind t pat).map (· + 1) := by
  simp [pyFind, h]

theorem matchesAt_self_append (p r : List Char) : matchesAt p (p ++ r) = true := by
  induction p with
  | nil => rfl
  | cons x t ih => simp [matchesAt, ih]

theorem matchesAt_length (pat s : List Char) (h : matchesAt pat s = true) :
    pat.length ≤ s.length := by
  induction pat generalizing s with
  | nil => simp
  | cons p ps ih =>
    cases s with
    | nil => simp [matchesAt] at h
    | cons c cs =>
      rw [matchesAt] at h
      split_ifs at h with hpc
      simpa using ih cs h

theorem pyFind_none_of_short (s pat : List Char) (h : s.length < pat.length) :
    pyFind s pat = none := by
  induction s with
  | nil =>
    cases pat with
    | nil => simp at h
    | cons p ps => simp [pyFind, matchesAt]
  | cons x t ih =>
    have hm : matchesAt pat (x :: t) = false := by
      cases hmm : matchesAt pat (x :: t)
      · rfl
      · exact absurd (matchesAt_length pat _ hmm) (by simp at h ⊢; omega)
    rw [pyFind_cons_of_not_matches _ _ _ hm, ih (by simp at h ⊢; omega)]
    rfl

theorem pyFind_none_append (a r pat p : List Char) (hpat : pat = backtick :: p)
    (ha : ∀ ch ∈ a, ch ≠ backtick) (hr : r.length < pat.length) :
    pyFind (a ++ r) pat = none := by
  subst hpat
  induction a with
  | nil =>
    rw [List.nil_append]
    exact pyFind_none_of_short r _ hr
  | cons x t ih =>
    have hx : x ≠ backtick := ha x (List.mem_cons_self x t)
    have hm : matchesAt (backtick :: p) (x :: (t ++ r)) = false := by
      simp [matchesAt, Ne.symm hx]
    rw [List.cons_append, pyFind_cons_of_not_matches _ _ _ hm,
        ih (fun ch hch => ha ch (List.mem_cons_of_mem _ hch))]
    rfl

theorem pyFind_fence_append (a t : List Char) (ha : ∀ ch ∈ a, ch ≠ backtick)
    (ht : matchesAt plainFence t = true) :
    pyFind (a ++ t) plainFence = some a.length := by
  induction a with
  | nil => simpa using pyFind_of_matches t plainFence ht
  | cons x xs ih =>
    have hx : x ≠ backtick := ha x (List.mem_cons_self x xs)
    have hm : matchesAt plainFence (x :: (xs ++ t)) = false := by
      simp [plainFence, matchesAt, Ne.symm hx]
    rw [List.cons_append, pyFind_cons_of_not_matches _ _ _ hm,
        ih (fun ch hch => ha ch (List.mem_cons_of_mem _ hch))]
    rfl

/-- Claim C6 (amended): for every JSON object text j that contains no backtick
    character (in its canonical form: no surrounding whitespace, leading `{`),
    the reconciler produces the same result for j wrapped in fenced-code-block
    markers — either ```json ... ``` or ``` ... ``` — as for the unwrapped j:
    the marker stripping extracts exactly j and parsing proceeds identically.
    A backtick inside a JSON string value breaks this (see the counterexample). -/
theorem claim_C6 (j : List Char) (o : ResultDict)
    (_hload : json_loads j = some (Json.obj o))
    (hstrip : pyStrip j = j)
    (hnb : ∀ ch ∈ j, ch ≠ backtick)
    (hhead : ∃ tail, j = lbrace :: tail) :
    parse_gemini_response (jsonFence ++ j ++ plainFence) = parse_gemini_response j ∧
      parse_gemini_response (plainFence ++ j ++ plainFence) = parse_gemini_response j := by
  have hfj : pyFind j jsonFence = none := by
    have h := pyFind_none_append j [] jsonFence [backtick, backtick, 'j', 's', 'o', 'n']
      rfl hnb (by decide)
    rwa [List.append_nil] at h
  have hfp : pyFind j plainFence = none := by
    have h := pyFind_none_append j [] plainFence [backtick, backtick] rfl hnb (by decide)
    rwa [List.append_nil] at h
  have hstrip_u : stripMarkers j = j := by
    unfold stripMarkers
    rw [hfj, hfp]
  have hstrip_1 : stripMarkers (jsonFence ++ j ++ plainFence) = j := by
    have hf0 : pyFind (jsonFence ++ j ++ plainFence) jsonFence = some 0 := by
      apply pyFind_of_matches
      rw [List.append_assoc]
      exact matchesAt_self_append _ _
    have hdrop : (jsonFence ++ j ++ plainFence).drop 7 = j ++ plainFence := by
      rw [List.append_assoc, show (7 : Nat) = jsonFence.length from rfl, List.drop_left]
    have hff : pyFindFrom (jsonFence ++ j ++ plainFence) plainFence 7
        = some (j.length + 7) := by
      unfold pyFindFrom
      rw [hdrop, pyFind_fence_append j plainFence hnb rfl]
      rfl
    unfold stripMarkers
    rw [hf0]
    simp only [Nat.zero_add]
    rw [hff]
    unfold pySliceEnd
    rw [hdrop]
    show pyStrip (List.take (j.length + 7 - 7) (j ++ plainFence)) = j
    rw [show j.length + 7 - 7 = j.length by omega, List.take_left]
    exact hstrip
  have hstrip_2 : stripMarkers (plainFence ++ j ++ plainFence) = j := by
    obtain ⟨tail, htail⟩ := hhead
    have hfjn : pyFind (plainFence ++ j ++ plainFence) jsonFence = none := by
      have hrest : pyFind (j ++ plainFence) jsonFence = none :=
        pyFind_none_append j plainFence jsonFence [backtick, backtick, 'j', 's', 'o', 'n']
          rfl hnb (by decide)
      have hs2 : plainFence ++ j ++ plainFence
          = backtick :: backtick :: backtick :: (j ++ plainFence) := by
        rw [List.append_assoc]
        rfl
      rw [hs2, htail]
      have hm1 : matchesAt jsonFence
          (backtick :: backtick :: backtick :: (lbrace :: tail ++ plainFence)) = false := rfl
      have hm2 : matchesAt jsonFence
          (backtick :: backtick :: (lbrace :: tail ++ plainFence)) = false := rfl
      have hm3 : matchesAt jsonFence
          (backtick :: (lbrace :: tail ++ plainFence)) = false := rfl
      rw [pyFind_cons_of_not_matches _ _ _ hm1, pyFind_cons_of_not_matches _ _ _ hm2,
          pyFind_cons_of_not_matches _ _ _ hm3]
      rw [htail] at hrest
      rw [hrest]
      rfl
    have hf0 : pyFind (plainFence ++ j ++ plainFence) plainFence = some 0 := by
      apply pyFind_of_matches
      rw [List.append_assoc]
      exact matchesAt_self_append _ _
    have hdrop : (plainFence ++ j ++ plainFence).drop 3 = j ++ plainFence := by
      rw [List.append_assoc, show (3 : Nat) = plainFence.length from rfl, List.drop_left]
    have hff : pyFindFrom (plainFence ++ j ++ plainFence) plainFence 3
        = some (j.length + 3) := by
      unfold pyFindFrom
      rw [hdrop, pyFind_fence_append j plainFence hnb rfl]
      rfl
    unfold stripMarkers
    rw [hfjn, hf0]
    simp only [Nat.zero_add]
    rw [hff]
    unfold pySliceEnd
    rw [hdrop]
    show pyStrip (List.take (j.length + 3 - 3) (j ++ plainFence)) = j
    rw [show j.length + 3 - 3 = j.length by omega, List.take_left]
    exact hstrip
  have key : ∀ x, stripMarkers x = j → parse_gemini_response x = parse_gemini_response j := by
    intro x hx
    show (match json_loads (stripMarkers x) with
      | some data => processParsed data (stripMarkers x)
      | none => create_fallback_response (stripMarkers x))
      = (match json_loads (stripMarkers j) with
      | some data => processParsed data (stripMarkers j)
      | none => create_fallback_response (stripMarkers j))
    rw [hx, hstrip_u]
  exact ⟨key _ hstrip_1, key _ hstrip_2⟩

/-- Witness for C6: a concrete backtick-free JSON object text gives identical
    results wrapped and unwrapped. -/
theorem claim_C6_witness :
    parse_gemini_response (jsonFence
        ++ "\x7b\"item_name\": \"Bottle\", \"category\": \"Recyclable Plastic\", \"confidence\": 0.95\x7d".toList
        ++ plainFence)
      = parse_gemini_response
        "\x7b\"item_name\": \"Bottle\", \"category\": \"Recyclable Plastic\", \"confidence\": 0.95\x7d".toList :=
  (claim_C6 "\x7b\"item_name\": \"Bottle\", \"category\": \"Recyclable Plastic\", \"confidence\": 0.95\x7d".toList
      [("item_name", Json.str "Bottle"), ("category", Json.str "Recyclable Plastic"),
      ("confidence", Json.num (mkRat 19 20))] rfl rfl (by decide)
      ⟨"\"item_name\": \"Bottle\", \"category\": \"Recyclable Plastic\", \"confidence\": 0.95\x7d".toList,
        rfl⟩).1

/-- Counterexample to C6 as stated: a valid JSON object text containing a
    backtick run inside a string value parses to different results wrapped
    versus unwrapped (the marker-stripping cuts at the inner backticks). -/
theorem claim_C6_counterexample :
    json_loads "\x7b\"item_name\": \"x```\", \"category\": \"Unknown\", \"confidence\": 1\x7d".toList
      = some (Json.obj [("item_name", Json.str "x```"), ("category", Json.str "Unknown"),
          ("confidence", Json.num 1)]) ∧
    parse_gemini_response ("```json".toList
        ++ "\x7b\"item_name\": \"x```\", \"category\": \"Unknown\", \"confidence\": 1\x7d".toList
        ++ "```".toList)
      ≠ parse_gemini_response
        "\x7b\"item_name\": \"x```\", \"category\": \"Unknown\", \"confidence\": 1\x7d".toList := by
  refine ⟨rfl, fun h => ?_⟩
  have h1 : dictGet (parse_gemini_response ("```json".toList
      ++ "\x7b\"item_name\": \"x```\", \"category\": \"Unknown\", \"confidence\": 1\x7d".toList
      ++ "```".toList)) "raw_ai_response"
      = some (Json.str "\x7b\"item_name\": \"x") := rfl
  rw [h] at h1
  have h2 : dictGet (parse_gemini_response
      "\x7b\"item_name\": \"x```\", \"category\": \"Unknown\", \"confidence\": 1\x7d".toList)
      "raw_ai_response"
      = some (Json.str "\", \"category\": \"Unknown\", \"confidence\": 1") := rfl
  rw [h2] at h1
  injection h1 with h3
  injection h3 with h4
  exact absurd h4 (by decide)

/-- Witness for C5: scanning an E-Waste item with no AI-supplied disposal data
    attaches the static guide's examples list. -/
theorem claim_C5_witness :
    dictGet (processParsed (Json.obj [("item_name", Json.str "Laptop"),
        ("category", Json.str "E-Waste"), ("confidence", Json.num (mkRat 1 2))]) [])
        "examples" = some (Json.arr [Json.str "Old phones", Json.str "Computers",
          Json.str "Cables", Json.str "Appliances"]) :=
  (claim_C5 [("item_name", Json.str "Laptop"), ("category", Json.str "E-Waste"),
      ("confidence", Json.num (mkRat 1 2))] [] (Json.num (mkRat 1 2)) "E-Waste"
      { binColor := "SPECIAL"
        instructions := ["Remove batteries if possible", "Wipe personal data from devices",
          "Take to e-waste collection center", "Check for manufacturer take-back programs"]
        examples := ["Old phones", "Computers", "Cables", "Appliances"]
        co2SavedPerKg := mkRat 9 5
        decompositionTime := "Never decomposes, toxic materials" }
      rfl rfl ⟨mkRat 1 2, rfl⟩ rfl rfl (Or.inl rfl)).2.2.2.2.2.2.2.2.2
